import Mathlib

set_option maxRecDepth 100000

/-!
Verification development for the libwsv5 OBS WebSocket v5 client library
(`src/library.c`).  The definitions below are a shallow embedding of the
data model and operations of the C source: machine integers are `Nat`
with explicit reduction modulo `2 ^ 32` where 32-bit overflow matters,
C strings are Lean `String`s viewed as their byte lists, NULL pointers
are `Option`, and the stateful operations are explicit state-passing
functions on a `Connection` record mirroring `struct obsws_connection`.

The SHA-256 hash and the base64 codec are external collaborators of the
library (OpenSSL); they are embedded here directly from their standards
(FIPS 180-4 and RFC 4648) exactly as the library invokes them:
`sha256_hash` hashes a NUL-terminated string, `base64_encode` encodes a
byte string without line breaks.
-/

namespace Libwsv5

/-! ### Bytes and 32-bit words -/

/-- The bytes of a C string (the library only ever hashes ASCII data:
base64 output, host names, passwords and JSON field values). -/
def strBytes (s : String) : List Nat := s.data.map Char.toNat

/-- Reduce to a 32-bit word, as C unsigned arithmetic does. -/
def w32 (n : Nat) : Nat := n % 4294967296

/-- 32-bit modular addition. -/
def add32 (a b : Nat) : Nat := (a + b) % 4294967296

/-- 32-bit right rotation. -/
def rotr32 (x n : Nat) : Nat := w32 ((x >>> n) ||| (x <<< (32 - n)))

/-- Big-endian byte rendering of `n` on `k` bytes. -/
def beBytes (n k : Nat) : List Nat :=
  (List.range k).reverse.map (fun i => n >>> (8 * i) % 256)

/-! ### SHA-256 (FIPS 180-4), as used through OpenSSL EVP_sha256 -/

def sha256Ch (x y z : Nat) : Nat := (x &&& y) ^^^ ((x ^^^ 4294967295) &&& z)

def sha256Maj (x y z : Nat) : Nat := (x &&& y) ^^^ (x &&& z) ^^^ (y &&& z)

def bsig0 (x : Nat) : Nat := rotr32 x 2 ^^^ rotr32 x 13 ^^^ rotr32 x 22

def bsig1 (x : Nat) : Nat := rotr32 x 6 ^^^ rotr32 x 11 ^^^ rotr32 x 25

def ssig0 (x : Nat) : Nat := rotr32 x 7 ^^^ rotr32 x 18 ^^^ (x >>> 3)

def ssig1 (x : Nat) : Nat := rotr32 x 17 ^^^ rotr32 x 19 ^^^ (x >>> 10)

/-- The 64 SHA-256 round constants of FIPS 180-4 (the first 32 bits of the
fractional parts of the cube roots of the first 64 primes), written in
decimal. -/
def sha256K : List Nat :=
  [1116352408, 1899447441, 3049323471, 3921009573, 961987163, 1508970993,
   2453635748, 2870763221, 3624381080, 310598401, 607225278, 1426881987,
   1925078388, 2162078206, 2614888103, 3248222580, 3835390401, 4022224774,
   264347078, 604807628, 770255983, 1249150122, 1555081692, 1996064986,
   2554220882, 2821834349, 2952996808, 3210313671, 3336571891, 3584528711,
   113926993, 338241895, 666307205, 773529912, 1294757372, 1396182291,
   1695183700, 1986661051, 2177026350, 2456956037, 2730485921, 2820302411,
   3259730800, 3345764771, 3516065817, 3600352804, 4094571909, 275423344,
   430227734, 506948616, 659060556, 883997877, 958139571, 1322822218,
   1537002063, 1747873779, 1955562222, 2024104815, 2227730452, 2361852424,
   2428436474, 2756734187, 3204031479, 3329325298]

/-- The initial SHA-256 hash value of FIPS 180-4 (first 32 bits of the
fractional parts of the square roots of the first 8 primes), in
decimal. -/
def sha256H0 : List Nat :=
  [1779033703, 3144134277, 1013904242, 2773480762,
   1359893119, 2600822924, 528734635, 1541459225]

/-- FIPS 180-4 padding: append 0x80, zeros, then the 64-bit big-endian bit length. -/
def sha256Pad (msg : List Nat) : List Nat :=
  let len := msg.length
  msg ++ [0x80] ++ List.replicate ((119 - len % 64) % 64) 0 ++ beBytes (len * 8) 8

/-- Group a byte list into big-endian 32-bit words. -/
def bytesToWords : List Nat → List Nat
  | a :: b :: c :: d :: rest => (((a * 256 + b) * 256 + c) * 256 + d) :: bytesToWords rest
  | _ => []

/-- Append the next message-schedule word to a partial schedule `w`
(`W[t] = ssig1 W[t-2] + W[t-7] + ssig0 W[t-15] + W[t-16]`). -/
def scheduleStep (w : List Nat) : List Nat :=
  let t := w.length
  w ++ [add32 (add32 (ssig1 (w.getD (t - 2) 0)) (w.getD (t - 7) 0))
              (add32 (ssig0 (w.getD (t - 15) 0)) (w.getD (t - 16) 0))]

/-- The 64-word message schedule of one 16-word block. -/
def sha256Schedule (block : List Nat) : List Nat :=
  (List.range 48).foldl (fun w _ => scheduleStep w) block

/-- One compression round on the working variables `[a,b,c,d,e,f,g,h]`. -/
def sha256Round (st : List Nat) (kw : Nat × Nat) : List Nat :=
  match st with
  | [a, b, c, d, e, f, g, h] =>
    let t1 := add32 h (add32 (bsig1 e) (add32 (sha256Ch e f g) (add32 kw.1 kw.2)))
    let t2 := add32 (bsig0 a) (sha256Maj a b c)
    [add32 t1 t2, a, b, c, add32 d t1, e, f, g]
  | other => other

/-- Compress one 16-word block into the intermediate hash value. -/
def sha256Compress (hs block : List Nat) : List Nat :=
  let st := (sha256K.zip (sha256Schedule block)).foldl sha256Round hs
  (hs.zip st).map (fun p => add32 p.1 p.2)

/-- Fold the compression function over `fuel` consecutive 16-word blocks. -/
def sha256Blocks : Nat → List Nat → List Nat → List Nat
  | 0, hs, _ => hs
  | fuel + 1, hs, ws => sha256Blocks fuel (sha256Compress hs (ws.take 16)) (ws.drop 16)

/-- SHA-256 of a byte list, producing the 32 digest bytes. -/
def sha256 (msg : List Nat) : List Nat :=
  let ws := bytesToWords (sha256Pad msg)
  let hs := sha256Blocks (ws.length / 16) sha256H0 ws
  (hs.map (fun h => beBytes h 4)).flatten

/-! ### Base64 (RFC 4648), as used through the OpenSSL BIO encoder with
`BIO_FLAGS_BASE64_NO_NL` (no line breaks) -/

def b64Alphabet : List Char :=
  "ABCDEFGHIJKLMNOPQRSTUVWXYZabcdefghijklmnopqrstuvwxyz0123456789+/".data

def b64Char (n : Nat) : Char := b64Alphabet.getD n 'A'

/-- Encode a byte list into base64 characters, three bytes at a time. -/
def b64Chars : List Nat → List Char
  | a :: b :: c :: rest =>
    let n := (a * 256 + b) * 256 + c
    b64Char (n >>> 18 &&& 63) :: b64Char (n >>> 12 &&& 63) ::
      b64Char (n >>> 6 &&& 63) :: b64Char (n &&& 63) :: b64Chars rest
  | [a, b] =>
    let n := (a * 256 + b) * 4
    [b64Char (n >>> 12 &&& 63), b64Char (n >>> 6 &&& 63), b64Char (n &&& 63), '=']
  | [a] =>
    let n := a * 16
    [b64Char (n >>> 6 &&& 63), b64Char (n &&& 63), '=', '=']
  | [] => []

/-- `base64_encode` from `src/library.c` (OpenSSL BIO base64, no newlines). -/
def base64_encode (input : List Nat) : String := String.mk (b64Chars input)

/-! ### Authentication (`generate_auth_response`, src/library.c:437) -/

/-- `generate_auth_response`: `secret = base64(sha256(password ++ salt))`,
answer `= base64(sha256(secret ++ challenge))`. -/
def generate_auth_response (password salt challenge : String) : String :=
  let secret := base64_encode (sha256 (strBytes (password ++ salt)))
  base64_encode (sha256 (strBytes (secret ++ challenge)))

/-! ### Constants (src/library.c:32-101) -/

def OBSWS_PROTOCOL_VERSION : Nat := 1

/-- Hard bound documented for the pending-request table (src/library.c:45).
The comment there says the table is limited to 256 in-flight requests. -/
def OBSWS_MAX_PENDING_REQUESTS : Nat := 256

/-- UUIDs are 36 characters plus the NUL terminator (src/library.c:49). -/
def OBSWS_UUID_LENGTH : Nat := 37

def OBSWS_OPCODE_HELLO : Nat := 0
def OBSWS_OPCODE_IDENTIFY : Nat := 1
def OBSWS_OPCODE_IDENTIFIED : Nat := 2
def OBSWS_OPCODE_EVENT : Nat := 5
def OBSWS_OPCODE_REQUEST : Nat := 6
def OBSWS_OPCODE_REQUEST_RESPONSE : Nat := 7

/-- Fixed all-categories event subscription bitmask (src/library.c:101). -/
def OBSWS_EVENT_ALL : Nat := 0x7FF

/-! ### Data model (libwsv5.h, src/library.c:103-233) -/

/-- `obsws_state_t` from libwsv5.h. -/
inductive ObswsState
  | disconnected
  | connecting
  | authenticating
  | connected
  | error
deriving DecidableEq, Repr

/-- `obsws_error_t` from libwsv5.h. -/
inductive ObswsError
  | ok
  | invalidParam
  | connectionFailed
  | authFailed
  | timeout
  | sendFailed
  | recvFailed
  | parseFailed
  | notConnected
  | alreadyConnected
  | outOfMemory
  | sslFailed
  | unknown
deriving DecidableEq, Repr

/-- `obsws_response_t`.  `response_data` is the JSON payload; the JSON codec
is an external collaborator, so the payload is embedded already decoded as
a key/value object (`none` models a NULL `response_data` pointer). -/
structure Response where
  success : Bool := false
  status_code : Int := 0
  error_message : Option String := none
  response_data : Option (List (String × String)) := none
deriving DecidableEq, Repr

/-- `pending_request_t` (src/library.c:127).  The per-entry mutex and
condition variable are the wait/wake primitive; waking is modelled by the
`completed` flag the woken waiter observes. -/
structure PendingRequest where
  request_id : String
  response : Response := {}
  completed : Bool := false
  timestamp : Nat := 0
deriving DecidableEq, Repr

/-- `obsws_stats_t` (the fields the embedded operations touch). -/
structure Stats where
  messages_sent : Nat := 0
  messages_received : Nat := 0
  bytes_sent : Nat := 0
  bytes_received : Nat := 0
  reconnect_count : Nat := 0
  connected_since : Nat := 0
deriving DecidableEq, Repr

/-- The configuration fields consumed by the embedded operations. -/
structure Config where
  recv_timeout_ms : Nat := 5000
  password : Option String := none
deriving DecidableEq, Repr

/-- `struct obsws_connection` (src/library.c:169): the fields the claims
touch.  Buffers and the transport handle live with the transport
collaborator; locks disappear in this sequentialised embedding. -/
structure Connection where
  config : Config := {}
  state : ObswsState := .disconnected
  pending_requests : List PendingRequest := []
  stats : Stats := {}
  auth_required : Bool := false
  challenge : Option String := none
  salt : Option String := none
  current_scene : Option String := none
deriving DecidableEq, Repr

/-! ### Pending-request table (src/library.c:506-596) -/

/-- `create_pending_request` (src/library.c:506): allocate an entry with a
zeroed response slot, the current timestamp and `completed = false`, and
push it at the head of the list.  The source performs no check against
`OBSWS_MAX_PENDING_REQUESTS`. -/
def create_pending_request (conn : Connection) (request_id : String) (now : Nat) : Connection :=
  let req : PendingRequest := { request_id := request_id, timestamp := now }
  { conn with pending_requests := req :: conn.pending_requests }

/-- `find_pending_request` (src/library.c:531). -/
def find_pending_request (conn : Connection) (request_id : String) : Option PendingRequest :=
  conn.pending_requests.find? (fun r => r.request_id == request_id)

/-- `remove_pending_request` (src/library.c:549): unlink the first entry
that is the target and release it. -/
def remove_pending_request (conn : Connection) (request_id : String) : Connection :=
  { conn with pending_requests :=
      conn.pending_requests.eraseP (fun r => r.request_id == request_id) }

/-- The retirement applied by the sweep to a stale entry
(src/library.c:584-589): mark completed, fill the response slot with a
synthetic failure carrying "Request timeout", broadcast the condition. -/
def retireTimedOut (e : PendingRequest) : PendingRequest :=
  { e with
      completed := true
      response := { e.response with
                      success := false
                      error_message := some "Request timeout" } }

/-- `cleanup_old_requests` (src/library.c:572): walk the table, unlink every
entry strictly older than 30 seconds and retire it (waking its waiter).
Returns the remaining table and the retired (woken) entries. -/
def cleanup_old_requests (now : Nat) :
    List PendingRequest → List PendingRequest × List PendingRequest
  | [] => ([], [])
  | e :: rest =>
    let p := cleanup_old_requests now rest
    if now - e.timestamp > 30 then (p.1, retireTimedOut e :: p.2) else (e :: p.1, p.2)

/-- One tick of `event_thread_func` (src/library.c:1131), restricted to the
sweep it runs on every iteration of its loop. -/
def event_thread_tick (conn : Connection) (now : Nat) :
    Connection × List PendingRequest :=
  let p := cleanup_old_requests now conn.pending_requests
  ({ conn with pending_requests := p.1 }, p.2)

/-- Registration of a sequence of requests through `create_pending_request`
(the registration path of `obsws_send_request`, src/library.c:1791). -/
def registerMany (conn : Connection) (ids : List String) (now : Nat) : Connection :=
  ids.foldl (fun c id => create_pending_request c id now) conn

/-! ### Protocol message handling (src/library.c:636-981)

The JSON codec is an external collaborator; an inbound frame arrives
either unparseable, or parsed but lacking the `op` field, or as a decoded
envelope carrying the fields the handlers inspect. -/

/-- A decoded wire message, carrying exactly the payload fields the
handlers of src/library.c read. -/
inductive Msg
  | hello (auth : Option (String × String))
  | identified
  | event (eventType : Option String) (sceneName : Option String)
  | requestResponse (requestId : Option String) (result : Bool) (code : Int)
      (comment : Option String) (rdata : Option (List (String × String)))
  | other (op : Int)
deriving DecidableEq, Repr

/-- An inbound frame as `handle_websocket_message` (src/library.c:932)
sees it: unparseable JSON, JSON missing the `op` field, or a decoded
envelope together with its byte length. -/
inductive Frame
  | unparseable
  | missingOp
  | msg (m : Msg) (len : Nat)
deriving DecidableEq, Repr

/-- The Identify reply built by `handle_hello_message`
(src/library.c:662-683). -/
structure IdentifyData where
  op : Nat
  rpcVersion : Nat
  eventSubscriptions : Nat
  authentication : Option String
deriving DecidableEq, Repr

/-- `handle_hello_message` (src/library.c:636): record whether
authentication is required, store challenge and salt, move to
`Authenticating`, and build the Identify reply; the authentication token
is computed only when auth is required and a password is configured. -/
def handle_hello_message (conn : Connection) (auth : Option (String × String)) :
    Connection × IdentifyData :=
  let conn1 :=
    match auth with
    | some (chal, salt) =>
      { conn with
          auth_required := true
          challenge := some chal
          salt := some salt
          state := .authenticating }
    | none => { conn with auth_required := false, state := .authenticating }
  let token :=
    match auth, conn.config.password with
    | some (chal, salt), some pw => some (generate_auth_response pw salt chal)
    | _, _ => none
  (conn1,
   { op := OBSWS_OPCODE_IDENTIFY
     rpcVersion := OBSWS_PROTOCOL_VERSION
     eventSubscriptions := OBSWS_EVENT_ALL
     authentication := token })

/-- `handle_identified_message` (src/library.c:734). -/
def handle_identified_message (conn : Connection) (now : Nat) : Connection :=
  { conn with
      state := .connected
      stats := { conn.stats with connected_since := now } }

/-- `handle_event_message` (src/library.c:786), restricted to its state
effect: on a `CurrentProgramSceneChanged` event carrying a `sceneName`,
replace the scene cache. -/
def handle_event_message (conn : Connection) (eventType : Option String)
    (sceneName : Option String) : Connection :=
  match eventType, sceneName with
  | some et, some name =>
    if et == "CurrentProgramSceneChanged" then
      { conn with current_scene := some name }
    else conn
  | _, _ => conn

/-- `handle_request_response_message` (src/library.c:859): look the entry
up by id; if absent, log and drop returning -1; if present, fill its
response slot, mark it complete and broadcast. -/
def handle_request_response_message (conn : Connection) (rid : Option String)
    (result : Bool) (code : Int) (comment : Option String)
    (rdata : Option (List (String × String))) : Int × Connection :=
  match rid with
  | none => (-1, conn)
  | some id =>
    match find_pending_request conn id with
    | none => (-1, conn)
    | some _ =>
      let fill := fun (r : PendingRequest) =>
        if r.request_id == id then
          { r with
              completed := true
              response := { r.response with
                              success := result
                              status_code := code
                              error_message := comment
                              response_data :=
                                match rdata with
                                | some d => some d
                                | none => r.response.response_data } }
        else r
      (0, { conn with pending_requests := conn.pending_requests.map fill })

/-- The statistics update at the end of `handle_websocket_message`
(src/library.c:975-978). -/
def bumpRecvStats (conn : Connection) (len : Nat) : Connection :=
  { conn with
      stats := { conn.stats with
                   messages_received := conn.stats.messages_received + 1
                   bytes_received := conn.stats.bytes_received + len } }

/-- `handle_websocket_message` (src/library.c:932): unparseable JSON or a
missing `op` field is logged and dropped with result -1 before any state
or statistics change; otherwise the message is routed by opcode and the
receive statistics are updated. -/
def handle_websocket_message (conn : Connection) (now : Nat) (f : Frame) :
    Int × Connection :=
  match f with
  | .unparseable => (-1, conn)
  | .missingOp => (-1, conn)
  | .msg m len =>
    let rc :=
      match m with
      | .hello auth => (0, (handle_hello_message conn auth).1)
      | .identified => (0, handle_identified_message conn now)
      | .event et sn => (0, handle_event_message conn et sn)
      | .requestResponse rid res code comment rdata =>
        handle_request_response_message conn rid res code comment rdata
      | .other _ => (0, conn)
    (rc.1, bumpRecvStats rc.2 len)

/-- The receive path of the I/O loop delivering a sequence of complete
frames one after the other (`lws_callback` LWS_CALLBACK_CLIENT_RECEIVE,
src/library.c:1032, ignores the handler result and keeps the connection
going). -/
def processFrames (now : Nat) : Connection → List Frame → Connection
  | conn, [] => conn
  | conn, f :: rest => processFrames now (handle_websocket_message conn now f).2 rest

/-! ### `obsws_send_request` (src/library.c:1776) -/

/-- The entry checks of `obsws_send_request` (src/library.c:1778-1784):
`NULL` connection, request type or response pointer yield InvalidParam; a
state other than `Connected` yields NotConnected.  Both returns happen
before the request id is generated, before any entry is registered and
before any byte reaches the transport, so the connection comes back
untouched; `none` means the checks passed and the call proceeds. -/
def obsws_send_request_pre (conn : Option Connection)
    (request_type_null response_null : Bool) :
    Option (ObswsError × Option Connection) :=
  match conn with
  | none => some (.invalidParam, none)
  | some c =>
    if request_type_null || response_null then some (.invalidParam, some c)
    else if c.state ≠ ObswsState.connected then some (.notConnected, some c)
    else none

/-- Result of a completed `obsws_send_request` call. -/
inductive SendResult
  | ok (r : Response)
  | err (e : ObswsError)
deriving DecidableEq, Repr

/-- The sweep of `cleanup_old_requests` restricted to the single entry the
waiter registered (same staleness condition and retirement,
src/library.c:577-589): at time `t`, a still-tabled entry strictly older
than 30 seconds is unlinked and retired. -/
def sweepOne (t : Nat) (inTable : Bool) (e : PendingRequest) :
    Bool × PendingRequest :=
  if inTable ∧ t - e.timestamp > 30 then (false, retireTimedOut e) else (inTable, e)

/-- The waiting loop of `obsws_send_request` (src/library.c:1862-1870) for
a request that never receives a server answer, interleaved with the I/O
loop sweep which is the only other actor able to touch the entry.  Time
advances in one-second ticks starting one second after registration (the
entry timestamp is 0); each tick first runs the sweep, then the waiter:
`while (!req->completed)` exits with the filled response if the entry was
completed, otherwise `pthread_cond_timedwait` reports ETIMEDOUT once the
absolute deadline has passed, and the waiter removes the entry and
returns Timeout.  The Boolean tracks whether the entry is still in the
table. -/
def waitLoop (deadline_ms : Nat) : Nat → Nat → Bool → PendingRequest →
    SendResult × Bool
  | 0, _, inTable, _ => (.err .unknown, inTable)
  | fuel + 1, t, inTable, e =>
    let s := sweepOne t inTable e
    if s.2.completed then (.ok s.2.response, false)
    else if 1000 * t ≥ deadline_ms then (.err .timeout, false)
    else waitLoop deadline_ms fuel (t + 1) s.1 s.2

/-- `obsws_send_request` for a request the server never answers: the
effective timeout is the caller timeout, or the configured receive
timeout when the caller passes zero (src/library.c:1849-1851); the entry
is registered at time 0 and the outcome is decided by the race between
the waiter deadline and the 30-second sweep. -/
def obsws_send_request_no_answer (timeout_ms recv_timeout_ms : Nat) :
    SendResult × Bool :=
  let eff := if timeout_ms = 0 then recv_timeout_ms else timeout_ms
  waitLoop eff (eff / 1000 + 33) 1 true { request_id := "req0" }

/-! ### `obsws_disconnect` (src/library.c:1549) -/

/-- The handle the caller passes: NULL, or the (unchanging) address of the
connection object allocated by `obsws_connect`. -/
inductive Ptr
  | null
  | valid
deriving DecidableEq, Repr

/-- What one `obsws_disconnect` call did. -/
inductive DisconnectResult
  | noop
  | freed
  | useAfterFreed
deriving DecidableEq, Repr

/-- The teardown loop over the pending table (src/library.c:1575-1587)
releases each entry (response, mutex, condition variable, node) and
returns the ids of the entries whose condition variables it signalled:
the loop contains no broadcast or signal call, so none are. -/
def free_pending_loop : List PendingRequest → List String
  | [] => []
  | _ :: rest => free_pending_loop rest

/-- `obsws_disconnect` (src/library.c:1549): return immediately on a NULL
handle; otherwise join the I/O thread, release every owned resource and
free the connection object itself (src/library.c:1605).  The heap cell
(`Option Connection`) is the allocation the valid pointer refers to; the
function only checks the pointer against NULL, so a second call through
the same now-dangling pointer dereferences freed memory.  The returned
list carries the wake signals sent to pending waiters during teardown. -/
def obsws_disconnect (heap : Option Connection) (p : Ptr) :
    Option Connection × DisconnectResult × List String :=
  match p with
  | .null => (heap, .noop, [])
  | .valid =>
    match heap with
    | some c => (none, .freed, free_pending_loop c.pending_requests)
    | none => (none, .useAfterFreed, [])

/-! ### Scene operations (src/library.c:1935-2053) -/

/-- Field lookup in a decoded JSON object (`cJSON_GetObjectItem`). -/
def jsonLookup (obj : List (String × String)) (key : String) : Option String :=
  (obj.find? (fun p => p.1 == key)).map Prod.snd

/-- The request/response layer under the scene operations: one framed
request is serialized and transmitted, and the pending-table machinery
either hands back the response the server produced or reports Timeout
when there is none.  Returns the error, the response, and the number of
wire requests transmitted. -/
def send_request_wire (c : Connection) (server : Option Response) :
    ObswsError × Option Response × Nat :=
  if c.state ≠ ObswsState.connected then (.notConnected, none, 0)
  else
    match server with
    | some r => (.ok, some r, 1)
    | none => (.timeout, none, 1)

/-- `obsws_set_current_scene` (src/library.c:1935): if the requested name
equals the cached current scene, return success with a synthesised
successful response and zero wire traffic; otherwise send a
`SetCurrentProgramScene` request and, when it succeeds, refresh the
cache.  Returns error, connection, response handed to the caller, and
the number of wire requests. -/
def obsws_set_current_scene (c : Connection) (scene_name : String)
    (server : Option Response) :
    ObswsError × Connection × Option Response × Nat :=
  if c.current_scene = some scene_name then
    (.ok, c, some { success := true }, 0)
  else
    let w := send_request_wire c server
    match w.1, w.2.1 with
    | .ok, some r =>
      if r.success then
        (.ok, { c with current_scene := some scene_name }, some r, w.2.2)
      else (.ok, c, some r, w.2.2)
    | e, r => (e, c, r, w.2.2)

/-- `obsws_get_current_scene` (src/library.c:2022): always sends a
`GetCurrentProgramScene` request — the cache is never consulted — and on
a successful response carrying `currentProgramSceneName` copies the name
to the caller and refreshes the cache with it.  Returns error, the name
written to the caller buffer, the connection, and the number of wire
requests. -/
def obsws_get_current_scene (c : Connection) (server : Option Response) :
    ObswsError × Option String × Connection × Nat :=
  let w := send_request_wire c server
  match w.1, w.2.1 with
  | .ok, some r =>
    if r.success then
      match r.response_data with
      | some obj =>
        match jsonLookup obj "currentProgramSceneName" with
        | some name => (.ok, some name, { c with current_scene := some name }, w.2.2)
        | none => (.ok, none, c, w.2.2)
      | none => (.ok, none, c, w.2.2)
    else (.ok, none, c, w.2.2)
  | e, _ => (e, none, c, w.2.2)

/-! ### `generate_uuid` (src/library.c:344) -/

/-- Lowercase hexadecimal digit characters. -/
def hexDigit (n : Nat) : Char := "0123456789abcdef".data.getD n '0'

/-- The rendering of the C conversion `%0<width>x` for an argument below
`16 ^ width` (every argument passed in `generate_uuid` is an
`unsigned int`, hence below `2 ^ 32 = 16 ^ 8`, or is masked to 16 or
14 bits): exactly `width` lowercase hex digits, most significant
first. -/
def hexPad (n width : Nat) : List Char :=
  (List.range width).reverse.map (fun i => hexDigit (n >>> (4 * i) % 16))

/-- `generate_uuid` (src/library.c:344) applied to the six `rand()` draws
it consumes: `sprintf(uuid, "%08x-%04x-%04x-%04x-%04x%08x", r1,
r2 & 0xFFFF, (r3 & 0x0FFF) | 0x4000, (r4 & 0x3FFF) | 0x8000,
r5 & 0xFFFF, r6)`. -/
def generate_uuid (r1 r2 r3 r4 r5 r6 : Nat) : String :=
  String.mk (hexPad r1 8 ++ '-' ::
    (hexPad (r2 &&& 0xFFFF) 4 ++ '-' ::
      (hexPad ((r3 &&& 0x0FFF) ||| 0x4000) 4 ++ '-' ::
        (hexPad ((r4 &&& 0x3FFF) ||| 0x8000) 4 ++ '-' ::
          (hexPad (r5 &&& 0xFFFF) 4 ++ hexPad r6 8)))))

/-! ### NULL-safe query and teardown surface (src/library.c:1625-1714) -/

/-- `obsws_is_connected` (src/library.c:1625). -/
def obsws_is_connected (conn : Option Connection) : Bool :=
  match conn with
  | none => false
  | some c => c.state = ObswsState.connected

/-- `obsws_get_state` (src/library.c:1663). -/
def obsws_get_state (conn : Option Connection) : ObswsState :=
  match conn with
  | none => .disconnected
  | some c => c.state

/-- `obsws_get_stats` (src/library.c:1706).  The second argument is the
caller buffer (`none` is a NULL pointer, `some b` its current
contents); the returned pair is the error code and the buffer after the
call. -/
def obsws_get_stats (conn : Option Connection) (stats : Option Stats) :
    ObswsError × Option Stats :=
  match conn, stats with
  | none, b => (.invalidParam, b)
  | some _, none => (.invalidParam, none)
  | some c, some _ => (.ok, some c.stats)

end Libwsv5

namespace Libwsv5

/-- The computed secret and token on the golden inputs match the values
the authentication formula produces. -/
theorem golden_secret_value :
    base64_encode (sha256 (strBytes ("testpass" ++ "salt123"))) =
      "Y2HdqFlqSwREm9yuykgD2rF9Ul/vMT0Y1fOLYLwBqhw=" := by decide

/-! ### Helper lemmas -/

/-- Registering requests only ever prepends: the table grows by one entry
per registration, with no capacity check anywhere on the path. -/
theorem registerMany_length (conn : Connection) (ids : List String) (now : Nat) :
    (registerMany conn ids now).pending_requests.length =
      conn.pending_requests.length + ids.length := by
  induction ids generalizing conn with
  | nil => simp [registerMany]
  | cons id rest ih =>
    have h : registerMany conn (id :: rest) now =
        registerMany (create_pending_request conn id now) rest now := rfl
    rw [h, ih]
    simp [create_pending_request]
    omega

/-- The teardown free loop signals no waiter, whatever the table holds. -/
theorem free_pending_loop_empty (reqs : List PendingRequest) :
    free_pending_loop reqs = [] := by
  induction reqs with
  | nil => rfl
  | cons e rest ih => simpa [free_pending_loop] using ih

/-- The sweep splits the table exactly at the 30-second staleness bound:
entries at most 30 seconds old remain, strictly older entries are
retired. -/
theorem cleanup_old_requests_spec (now : Nat) (reqs : List PendingRequest) :
    (cleanup_old_requests now reqs).1 =
        reqs.filter (fun e => decide (now - e.timestamp ≤ 30)) ∧
    (cleanup_old_requests now reqs).2 =
        (reqs.filter (fun e => decide (now - e.timestamp > 30))).map retireTimedOut := by
  induction reqs with
  | nil => exact ⟨rfl, rfl⟩
  | cons e rest ih =>
    by_cases hc : now - e.timestamp > 30
    · constructor
      · simp [cleanup_old_requests, hc, List.filter, Nat.not_le.mpr hc, ih.1]
      · simp [cleanup_old_requests, hc, List.filter, ih.2]
    · constructor
      · simp [cleanup_old_requests, hc, List.filter, Nat.not_lt.mp hc, ih.1]
      · simp [cleanup_old_requests, hc, List.filter, ih.2]

/-! ### Claim theorems -/

/-- C2: the claim asserts a hard capacity bound of 256 on the
pending-request table with a deterministic overflow policy.  The code
documents the bound (`OBSWS_MAX_PENDING_REQUESTS`, src/library.c:45) but
`create_pending_request` never consults it: every registration succeeds
and prepends, so 257 registrations with no completions leave 257 live
entries, exceeding the documented maximum — the code contradicts its own
documentation. -/
theorem pending_table_exceeds_documented_bound :
    (∀ (conn : Connection) (ids : List String) (now : Nat),
        (registerMany conn ids now).pending_requests.length =
          conn.pending_requests.length + ids.length) ∧
    (registerMany {} ((List.range 257).map (fun i => toString i)) 0).pending_requests.length
        = 257 ∧
    257 > OBSWS_MAX_PENDING_REQUESTS := by
  refine ⟨registerMany_length, ?_, by decide⟩
  rw [registerMany_length]
  simp

/-- C4: the claim asserts disconnect is idempotent and wakes every blocked
waiter with an error.  In the code (src/library.c:1549-1606) the first
call frees the connection object itself, so a second call through the
same non-NULL handle passes the NULL check and operates on freed memory
(not a no-op); and the teardown loop over pending entries frees them
without ever signalling their condition variables, so no blocked waiter
is woken — each would wait out its own timeout.  Both contradict the
function's own documentation ("Safe to call multiple times"). -/
theorem disconnect_not_idempotent_and_wakes_nobody :
    obsws_disconnect
        (some { state := .connected, pending_requests := [{ request_id := "req0" }] })
        .valid = (none, .freed, []) ∧
    obsws_disconnect none .valid = (none, .useAfterFreed, []) ∧
    DisconnectResult.useAfterFreed ≠ DisconnectResult.noop ∧
    (∀ c : Connection, (obsws_disconnect (some c) .valid).2.2 = []) := by
  refine ⟨rfl, rfl, by decide, fun c => ?_⟩
  simpa [obsws_disconnect] using free_pending_loop_empty c.pending_requests

/-- C5: on every I/O loop tick the sweep retires exactly the entries
strictly older than the 30-second staleness bound: they leave the table,
their response slot is filled with a synthetic failure carrying
"Request timeout", they are marked completed, and their waiters are
woken (the retired list is the broadcast set); younger entries stay
untouched. -/
theorem sweep_retires_stale_entries (conn : Connection) (now : Nat) :
    (event_thread_tick conn now).1.pending_requests =
        conn.pending_requests.filter (fun e => decide (now - e.timestamp ≤ 30)) ∧
    (event_thread_tick conn now).2 =
        (conn.pending_requests.filter (fun e => decide (now - e.timestamp > 30))).map
          retireTimedOut ∧
    ∀ e ∈ (event_thread_tick conn now).2,
      e.completed = true ∧ e.response.success = false ∧
        e.response.error_message = some "Request timeout" := by
  obtain ⟨h1, h2⟩ := cleanup_old_requests_spec now conn.pending_requests
  refine ⟨h1, h2, fun e he => ?_⟩
  rw [show (event_thread_tick conn now).2 =
        (cleanup_old_requests now conn.pending_requests).2 from rfl, h2] at he
  obtain ⟨x, _, rfl⟩ := List.mem_map.mp he
  exact ⟨rfl, rfl, rfl⟩

/-- C5 witness: a connection holding one 31-second-old entry and one fresh
entry at time 31: the old entry is retired with the synthetic timeout
failure, the fresh one remains. -/
theorem sweep_retires_stale_entries_witness :
    (event_thread_tick
        { pending_requests := [{ request_id := "old" },
                               { request_id := "new", timestamp := 10 }] } 31).2 =
      [retireTimedOut { request_id := "old" }] ∧
    retireTimedOut { request_id := "old" } ∈
      (event_thread_tick
        { pending_requests := [{ request_id := "old" },
                               { request_id := "new", timestamp := 10 }] } 31).2 ∧
    (retireTimedOut { request_id := "old" }).completed = true := by
  refine ⟨by decide, by decide, ?_⟩
  exact ((sweep_retires_stale_entries
      { pending_requests := [{ request_id := "old" },
                             { request_id := "new", timestamp := 10 }] } 31).2.2
    (retireTimedOut { request_id := "old" }) (by decide)).1

/-- C8: a malformed inbound frame — unparseable JSON or a frame missing
the opcode field — is logged and dropped with result -1 and no effect at
all on the connection: the state, the pending table, the scene cache and
the statistics are exactly what they were, and the frames after it are
processed as if it had never arrived. -/
theorem malformed_frame_logged_and_dropped (conn : Connection) (now : Nat)
    (fs : List Frame) :
    handle_websocket_message conn now .unparseable = (-1, conn) ∧
    handle_websocket_message conn now .missingOp = (-1, conn) ∧
    processFrames now conn (.unparseable :: fs) = processFrames now conn fs ∧
    processFrames now conn (.missingOp :: fs) = processFrames now conn fs :=
  ⟨rfl, rfl, rfl, rfl⟩

/-- C10: the public query and teardown surface is total on NULL:
`obsws_is_connected(NULL)` is false, `obsws_get_state(NULL)` is
Disconnected, `obsws_get_stats` with a NULL handle or NULL output
returns InvalidParam leaving the output buffer untouched, and
`obsws_disconnect(NULL)` does nothing. -/
theorem null_handle_surface_total :
    obsws_is_connected none = false ∧
    obsws_get_state none = .disconnected ∧
    (∀ b : Option Stats, obsws_get_stats none b = (.invalidParam, b)) ∧
    (∀ c : Option Connection, obsws_get_stats c none = (.invalidParam, none)) ∧
    (∀ heap : Option Connection, obsws_disconnect heap .null = (heap, .noop, [])) := by
  refine ⟨rfl, rfl, fun b => rfl, fun c => ?_, fun heap => rfl⟩
  cases c <;> rfl

/-- While its deadline lies at or before the 30-second staleness bound,
the waiter of an unanswered request reaches ETIMEDOUT before the sweep
can touch the entry: it removes the entry and returns Timeout. -/
theorem waitLoop_times_out (deadline_ms : Nat) (e : PendingRequest)
    (fuel t : Nat) (h1 : 1 ≤ t) (h2 : t ≤ 30) (h3 : 31 ≤ fuel + t)
    (h4 : deadline_ms ≤ 30000) (h5 : e.completed = false) (h6 : e.timestamp = 0) :
    waitLoop deadline_ms fuel t true e = (.err .timeout, false) := by
  induction fuel generalizing t with
  | zero => omega
  | succ n ih =>
    have hsweep : sweepOne t true e = (true, e) := by
      simp [sweepOne, h6]
      omega
    by_cases hd : 1000 * t ≥ deadline_ms
    · simp [waitLoop, hsweep, h5, hd]
    · have ht : t < 30 := by omega
      have step : waitLoop deadline_ms (n + 1) t true e =
          waitLoop deadline_ms n (t + 1) true e := by
        simp [waitLoop, hsweep, h5, hd]
      rw [step]
      exact ih (t + 1) (by omega) (by omega) (by omega)

/-- C3 (amended): an unanswered request whose effective deadline — the
given timeout, or the configured receive timeout when the given timeout
is zero — is at most the 30-second sweep bound is retired exactly once
at its deadline: the waiter returns the Timeout error and the entry is
gone from the table.  (With a longer deadline the sweep retires the
entry first and the waiter returns Ok carrying the synthetic failure
response — see the counterexample theorem.) -/
theorem unanswered_request_times_out (timeout_ms recv_timeout_ms : Nat)
    (h : (if timeout_ms = 0 then recv_timeout_ms else timeout_ms) ≤ 30000) :
    obsws_send_request_no_answer timeout_ms recv_timeout_ms =
      (.err .timeout, false) := by
  unfold obsws_send_request_no_answer
  exact waitLoop_times_out _ _ _ 1 (by omega) (by omega) (by omega) h rfl rfl

/-- C3 witness: the default-policy call (caller timeout 5000 ms). -/
theorem unanswered_request_times_out_witness :
    (if (5000 : Nat) = 0 then 5000 else 5000) ≤ 30000 ∧
    obsws_send_request_no_answer 5000 5000 = (.err .timeout, false) :=
  ⟨by decide, unanswered_request_times_out 5000 5000 (by decide)⟩

/-- C3 counterexample: with a 40-second timeout the unanswered request is
not retired by the waiter at its deadline but by the 30-second sweep,
and the caller gets Ok with a synthetic failed response rather than the
Timeout error the claim promises for every timeout value. -/
theorem unanswered_request_long_timeout_returns_ok :
    obsws_send_request_no_answer 40000 5000 =
      (.ok { success := false, error_message := some "Request timeout" }, false) ∧
    (obsws_send_request_no_answer 40000 5000).1 ≠ SendResult.err .timeout := by
  constructor <;> decide

/-- C6: `obsws_send_request` enforces its preconditions before doing
anything: with valid arguments but a state other than Connected it
returns NotConnected, and with a NULL connection, request type or
response pointer it returns InvalidParam — in both cases the connection
is returned exactly as it was, so nothing was registered in the pending
table and no byte was written to the transport. -/
theorem send_request_precondition_enforcement (c : Connection)
    (conn : Option Connection) (rtNull respNull : Bool) :
    (rtNull = false → respNull = false → c.state ≠ ObswsState.connected →
      obsws_send_request_pre (some c) rtNull respNull =
        some (.notConnected, some c)) ∧
    (conn = none ∨ rtNull = true ∨ respNull = true →
      obsws_send_request_pre conn rtNull respNull =
        some (.invalidParam, conn)) := by
  constructor
  · intro hrt hresp hstate
    simp [obsws_send_request_pre, hrt, hresp, hstate]
  · rintro (rfl | rfl | rfl)
    · rfl
    · cases conn <;> simp [obsws_send_request_pre]
    · cases conn <;> simp [obsws_send_request_pre]

/-- C6 witness: a freshly allocated (Disconnected) connection rejects a
well-formed send with NotConnected, and a NULL connection yields
InvalidParam. -/
theorem send_request_precondition_witness :
    obsws_send_request_pre (some {}) false false =
      some (.notConnected, some {}) ∧
    obsws_send_request_pre none false false = some (.invalidParam, none) :=
  ⟨(send_request_precondition_enforcement {} none false false).1 rfl rfl (by decide),
   (send_request_precondition_enforcement {} none false false).2 (Or.inl rfl)⟩

/-- C7: switching to the scene already held by the cache short-circuits —
success, a synthesised successful response, zero wire requests, nothing
changed; the explicit scene query always performs exactly one round
trip when connected, its error and the name it hands the caller are
independent of whatever the cache holds, and a successful response
carrying `currentProgramSceneName` unconditionally refreshes the cache
with that name. -/
theorem scene_cache_short_circuit_and_query_round_trip :
    (∀ (c : Connection) (scene : String) (server : Option Response),
        c.current_scene = some scene →
        obsws_set_current_scene c scene server = (.ok, c, some { success := true }, 0)) ∧
    (∀ (c : Connection) (server : Option Response),
        c.state = ObswsState.connected →
        (obsws_get_current_scene c server).2.2.2 = 1) ∧
    (∀ (c : Connection) (server : Option Response) (cache : Option String),
        (obsws_get_current_scene { c with current_scene := cache } server).1 =
          (obsws_get_current_scene c server).1 ∧
        (obsws_get_current_scene { c with current_scene := cache } server).2.1 =
          (obsws_get_current_scene c server).2.1) ∧
    (∀ (c : Connection) (r : Response) (obj : List (String × String)) (name : String),
        c.state = ObswsState.connected → r.success = true →
        r.response_data = some obj →
        jsonLookup obj "currentProgramSceneName" = some name →
        (obsws_get_current_scene c (some r)).2.2.1.current_scene = some name) := by
  refine ⟨fun c scene server h => ?_, fun c server h => ?_,
          fun c server cache => ?_, fun c r obj name hst hs hd hl => ?_⟩
  · simp [obsws_set_current_scene, h]
  · cases server with
    | none => simp [obsws_get_current_scene, send_request_wire, h]
    | some r =>
      by_cases hs : r.success
      · cases hd : r.response_data with
        | none => simp [obsws_get_current_scene, send_request_wire, h, hs, hd]
        | some obj =>
          cases hl : jsonLookup obj "currentProgramSceneName" with
          | none => simp [obsws_get_current_scene, send_request_wire, h, hs, hd, hl]
          | some name => simp [obsws_get_current_scene, send_request_wire, h, hs, hd, hl]
      · simp [obsws_get_current_scene, send_request_wire, h, hs]
  · by_cases h : c.state = ObswsState.connected
    · cases server with
      | none => simp [obsws_get_current_scene, send_request_wire, h]
      | some r =>
        by_cases hs : r.success
        · cases hd : r.response_data with
          | none => simp [obsws_get_current_scene, send_request_wire, h, hs, hd]
          | some obj =>
            cases hl : jsonLookup obj "currentProgramSceneName" with
            | none => simp [obsws_get_current_scene, send_request_wire, h, hs, hd, hl]
            | some name =>
              simp [obsws_get_current_scene, send_request_wire, h, hs, hd, hl]
        · simp [obsws_get_current_scene, send_request_wire, h, hs]
    · simp [obsws_get_current_scene, send_request_wire, h]
  · simp [obsws_get_current_scene, send_request_wire, hst, hs, hd, hl]

/-- C7 witness: with the cache holding "SceneA", switching to "SceneA"
short-circuits; a connected query answered with
`currentProgramSceneName = "SceneB"` performs one round trip and leaves
"SceneB" in the cache. -/
theorem scene_cache_witness :
    obsws_set_current_scene
        { state := .connected, current_scene := some "SceneA" } "SceneA" none =
      (.ok, { state := .connected, current_scene := some "SceneA" },
       some { success := true }, 0) ∧
    (obsws_get_current_scene { state := .connected, current_scene := some "SceneA" }
        (some { success := true,
                response_data := some [("currentProgramSceneName", "SceneB")] })).2.2.2
      = 1 ∧
    (obsws_get_current_scene { state := .connected, current_scene := some "SceneA" }
        (some { success := true,
                response_data := some [("currentProgramSceneName", "SceneB")] })).2.2.1.current_scene
      = some "SceneB" :=
  ⟨scene_cache_short_circuit_and_query_round_trip.1
      { state := .connected, current_scene := some "SceneA" } "SceneA" none rfl,
   scene_cache_short_circuit_and_query_round_trip.2.1
      { state := .connected, current_scene := some "SceneA" }
      (some { success := true,
              response_data := some [("currentProgramSceneName", "SceneB")] }) rfl,
   scene_cache_short_circuit_and_query_round_trip.2.2.2
      { state := .connected, current_scene := some "SceneA" }
      { success := true, response_data := some [("currentProgramSceneName", "SceneB")] }
      [("currentProgramSceneName", "SceneB")] "SceneB" rfl rfl rfl (by decide)⟩

/-- A `%0<width>x` rendering has exactly `width` characters. -/
theorem hexPad_length (n w : Nat) : (hexPad n w).length = w := by
  simp [hexPad]

/-- Every digit character is a lowercase hexadecimal digit. -/
theorem hexDigit_mem (k : Nat) (h : k < 16) :
    hexDigit k ∈ "0123456789abcdef".data := by
  interval_cases k <;> decide

/-- Every character of a `%0<width>x` rendering is a lowercase hex digit. -/
theorem hexPad_mem (n w : Nat) :
    ∀ ch ∈ hexPad n w, ch ∈ "0123456789abcdef".data := by
  intro ch hch
  simp only [hexPad, List.mem_map, List.mem_reverse, List.mem_range] at hch
  obtain ⟨i, _, rfl⟩ := hch
  exact hexDigit_mem _ (Nat.mod_lt _ (by norm_num))

/-- The leading digit of the four-character group. -/
theorem hexPad4_headD (v : Nat) :
    (hexPad v 4).headD 'x' = hexDigit (v >>> 12 % 16) := rfl

/-- Setting the version bits as `(r & 0x0FFF) | 0x4000` forces the leading
nibble of the group to 4. -/
theorem version_nibble (x : Nat) (h : x < 4096) :
    ((x ||| 16384) >>> 12) % 16 = 4 := by
  apply Nat.eq_of_testBit_eq
  intro i
  rw [show (16 : Nat) = 2 ^ 4 from rfl, Nat.testBit_mod_two_pow,
      Nat.testBit_shiftRight, Nat.testBit_lor,
      show (16384 : Nat) = 2 ^ 14 from rfl, Nat.testBit_two_pow,
      show (4 : Nat) = 2 ^ 2 from rfl, Nat.testBit_two_pow]
  have hle : (4096 : Nat) ≤ 2 ^ (12 + i) := by
    calc (4096 : Nat) = 2 ^ 12 := rfl
    _ ≤ 2 ^ (12 + i) := Nat.pow_le_pow_right (by norm_num) (by omega)
  have hx : x.testBit (12 + i) = false :=
    Nat.testBit_eq_false_of_lt (lt_of_lt_of_le h hle)
  rw [hx, Bool.false_or, ← Bool.decide_and, decide_eq_decide]
  omega

/-- Setting the variant bits as `(r & 0x3FFF) | 0x8000` forces the leading
nibble of the group into 8..11. -/
theorem variant_nibble (x : Nat) (h : x < 16384) :
    ((x ||| 32768) >>> 12) % 16 = 8 ∨ ((x ||| 32768) >>> 12) % 16 = 9 ∨
    ((x ||| 32768) >>> 12) % 16 = 10 ∨ ((x ||| 32768) >>> 12) % 16 = 11 := by
  have hlt : ((x ||| 32768) >>> 12) % 16 < 16 := Nat.mod_lt _ (by norm_num)
  have hb3 : (((x ||| 32768) >>> 12) % 16).testBit 3 = true := by
    rw [show (16 : Nat) = 2 ^ 4 from rfl, Nat.testBit_mod_two_pow,
        Nat.testBit_shiftRight, Nat.testBit_lor,
        show (32768 : Nat) = 2 ^ 15 from rfl, Nat.testBit_two_pow]
    simp
  have hb2 : (((x ||| 32768) >>> 12) % 16).testBit 2 = false := by
    rw [show (16 : Nat) = 2 ^ 4 from rfl, Nat.testBit_mod_two_pow,
        Nat.testBit_shiftRight, Nat.testBit_lor,
        show (32768 : Nat) = 2 ^ 15 from rfl, Nat.testBit_two_pow]
    have hx : x.testBit 14 = false :=
      Nat.testBit_eq_false_of_lt (lt_of_lt_of_le h (by norm_num))
    simp [hx]
  rw [Nat.testBit_to_div_mod] at hb3 hb2
  have h3 := of_decide_eq_true hb3
  have h2 : ¬ (((x ||| 32768) >>> 12) % 16 / 2 ^ 2 % 2 = 1) := of_decide_eq_false hb2
  norm_num at h3 h2
  omega

/-- C9: for every sequence of `rand()` draws (each an `unsigned int` below
`2 ^ 32`), the generated correlation id is exactly 36 characters long in
the dashed 8-4-4-4-12 lowercase-hexadecimal layout, the third group
leads with the version nibble 4 and the fourth group leads with a
variant nibble among 8, 9, a, b. -/
theorem uuid_v4_well_formed (r1 r2 r3 r4 r5 r6 : Nat)
    (_h1 : r1 < 4294967296) (_h2 : r2 < 4294967296) (_h3 : r3 < 4294967296)
    (_h4 : r4 < 4294967296) (_h5 : r5 < 4294967296) (_h6 : r6 < 4294967296) :
    (generate_uuid r1 r2 r3 r4 r5 r6).length = 36 ∧
    ∃ g1 g2 g3 g4 g5 : List Char,
      (generate_uuid r1 r2 r3 r4 r5 r6).data =
        g1 ++ '-' :: (g2 ++ '-' :: (g3 ++ '-' :: (g4 ++ '-' :: g5))) ∧
      g1.length = 8 ∧ g2.length = 4 ∧ g3.length = 4 ∧ g4.length = 4 ∧
      g5.length = 12 ∧
      (∀ ch ∈ g1 ++ g2 ++ g3 ++ g4 ++ g5, ch ∈ "0123456789abcdef".data) ∧
      g3.headD 'x' = '4' ∧
      g4.headD 'x' ∈ ['8', '9', 'a', 'b'] := by
  constructor
  · simp [generate_uuid, String.length, hexPad_length]
  · refine ⟨hexPad r1 8, hexPad (r2 &&& 0xFFFF) 4,
      hexPad ((r3 &&& 0x0FFF) ||| 0x4000) 4, hexPad ((r4 &&& 0x3FFF) ||| 0x8000) 4,
      hexPad (r5 &&& 0xFFFF) 4 ++ hexPad r6 8, rfl,
      hexPad_length _ _, hexPad_length _ _, hexPad_length _ _, hexPad_length _ _,
      by simp [hexPad_length], ?_, ?_, ?_⟩
    · intro ch hch
      rcases List.mem_append.mp hch with hch | hch
      · rcases List.mem_append.mp hch with hch | hch
        · rcases List.mem_append.mp hch with hch | hch
          · rcases List.mem_append.mp hch with hch | hch
            · exact hexPad_mem _ _ ch hch
            · exact hexPad_mem _ _ ch hch
          · exact hexPad_mem _ _ ch hch
        · exact hexPad_mem _ _ ch hch
      · rcases List.mem_append.mp hch with hch | hch
        · exact hexPad_mem _ _ ch hch
        · exact hexPad_mem _ _ ch hch
    · rw [hexPad4_headD]
      have hand : r3 &&& 0x0FFF < 4096 :=
        Nat.lt_succ_of_le (Nat.and_le_right (n := r3) (m := 0x0FFF))
      rw [version_nibble _ hand]
      rfl
    · rw [hexPad4_headD]
      have hand : r4 &&& 0x3FFF < 16384 :=
        Nat.lt_succ_of_le (Nat.and_le_right (n := r4) (m := 0x3FFF))
      rcases variant_nibble _ hand with hv | hv | hv | hv <;>
        simp [hv, hexDigit]

/-- C9 witness: the all-zero draw sequence. -/
theorem uuid_v4_well_formed_witness :
    (0 : Nat) < 4294967296 ∧ (generate_uuid 0 0 0 0 0 0).length = 36 :=
  ⟨by decide,
   (uuid_v4_well_formed 0 0 0 0 0 0 (by decide) (by decide) (by decide)
      (by decide) (by decide) (by decide)).1⟩

/-- C1: for every password, salt and challenge, the authentication token
placed in the Identify reply is
`base64(sha256(base64(sha256(password ++ salt)) ++ challenge))`; the
reply carries protocol version 1 and the all-categories subscription
bitmask 0x7FF; and on the golden inputs — challenge "chal456", salt
"salt123", password "testpass" — the token equals the fixed value
derived from the formula. -/
theorem identify_auth_token_formula :
    (∀ (password salt challenge : String) (conn : Connection),
        conn.config.password = some password →
        (handle_hello_message conn (some (challenge, salt))).2.authentication =
          some (base64_encode (sha256 (strBytes
            (base64_encode (sha256 (strBytes (password ++ salt))) ++ challenge)))) ∧
        (handle_hello_message conn (some (challenge, salt))).2.rpcVersion = 1 ∧
        (handle_hello_message conn (some (challenge, salt))).2.eventSubscriptions
          = 0x7FF) ∧
    generate_auth_response "testpass" "salt123" "chal456" =
      "aevcl5nZvjLhSzyJsCmDTRhnwrKTJ30+vyk80xhsCfA=" := by
  constructor
  · intro password salt challenge conn h
    refine ⟨?_, rfl, rfl⟩
    simp [handle_hello_message, h, generate_auth_response]
  · decide

/-- C1 witness: a connection configured with the golden password receives
the Hello carrying the golden challenge and salt, and the Identify reply
carries exactly the golden token. -/
theorem identify_auth_token_witness :
    ({ config := { password := some "testpass" } } : Connection).config.password
        = some "testpass" ∧
    (handle_hello_message { config := { password := some "testpass" } }
        (some ("chal456", "salt123"))).2.authentication =
      some (base64_encode (sha256 (strBytes
        (base64_encode (sha256 (strBytes ("testpass" ++ "salt123"))) ++ "chal456")))) :=
  ⟨rfl,
   (identify_auth_token_formula.1 "testpass" "salt123" "chal456"
      { config := { password := some "testpass" } } rfl).1⟩

end Libwsv5

